import Mathlib

/-!
Verification of the payment-service adapter core of the wso2services
repository against its natural-language specification.

The development shallowly embeds the Python sources:
* `app_services/payment_service/adapters/exceptions.py` (error taxonomy),
* `app_services/payment_service/adapters/base.py` (contract utilities),
* `app_services/payment_service/adapters/manager.py` (AdapterManager),
* `app_services/payment_service/adapters/custom/__init__.py` (CustomAdapter),
* `app_services/payment_service/adapters/stripe/__init__.py` (StripeAdapter).

Modelling conventions:
* Python exceptions become an inductive `PyExc`; fallible methods return
  `Except PyExc _`.
* Python `dict` (insertion-ordered) becomes an association list; `dict`
  insertion updates an existing key in place and otherwise appends.
* `Decimal` amounts are modelled as `Int` (every amount in the claims is
  integral; `int(amount)` truncation is then the identity).
* `bytes` payloads are lists of byte values (`List Nat`); `bytes.decode`
  and `json.loads` are modelled by executable `utf8Decode` / `jsonParse`
  functions below (JSON numbers are modelled as integers, which covers
  every payload the specification mentions).
* External network calls (the Stripe SDK) are modelled by passing the
  outcome of the call as an explicit argument, so that the adapter code
  surrounding the call is embedded faithfully.
-/

set_option autoImplicit false

universe u

/-- ASCII lower-casing of a single character, the relevant fragment of
Python `str.lower` (all adapter names in the repository are ASCII). -/
def lowerChar (c : Char) : Char :=
  if 'A' ≤ c && c ≤ 'Z' then Char.ofNat (c.toNat + 32) else c

/-- Python `s.lower()` on ASCII strings, applied character-wise. -/
def pyLower (s : String) : String :=
  ⟨s.data.map lowerChar⟩

/-- Python truthiness test `not x` for an `Optional[str]`: `None` and the
empty string are falsy. -/
def pyFalsyStrOpt : Option String → Bool
  | none => true
  | some s => s = ""

/-- The single-quote character, used when reproducing the error-message
strings of the source. -/
def squote : String := String.singleton (Char.ofNat 39)

/-- Python `", ".join(keys)`, as used by `AdapterManager.get_adapter` to
enumerate registered adapter names in its error message. -/
def joinComma : List String → String
  | [] => ""
  | [s] => s
  | s :: rest => s ++ ", " ++ joinComma rest

/-- Python `dict` lookup on the association-list model. -/
def dictGet {α : Type u} (k : String) : List (String × α) → Option α
  | [] => none
  | (k', v) :: rest => if k' = k then some v else dictGet k rest

/-- Python `dict` assignment `d[k] = v`: update in place when the key is
present (keeping its position), otherwise append. -/
def dictInsert {α : Type u} (k : String) (v : α) : List (String × α) → List (String × α)
  | [] => [(k, v)]
  | (k', v') :: rest => if k' = k then (k, v) :: rest else (k', v') :: dictInsert k v rest

/-- Python `del d[k]` on the association-list model (keys are unique in
every dictionary the manager builds). -/
def dictDel {α : Type u} (k : String) : List (String × α) → List (String × α)
  | [] => []
  | (k', v') :: rest => if k' = k then rest else (k', v') :: dictDel k rest

/-- Python `list(d.keys())` in insertion order. -/
def dictKeys {α : Type u} (d : List (String × α)) : List String :=
  d.map Prod.fst

/-- The exception taxonomy of `adapters/exceptions.py` (every class derives
from `PaymentError`), together with the Python built-in exceptions that the
adapter code can raise or leak (`ValueError` from the manager
registration check, `AttributeError` from calling `.get` on a non-dict). -/
inductive PyExc where
  | paymentError (msg : String)
  | validationError (msg : String)
  | insufficientFundsError (msg : String)
  | paymentNotFoundError (msg : String)
  | paymentProcessingError (msg : String)
  | refundError (msg : String)
  | webhookError (msg : String)
  | rateLimitError (msg : String)
  | authenticationError (msg : String)
  | valueError (msg : String)
  | attributeError (msg : String)
  deriving DecidableEq, Repr

/-- True exactly for the `WebhookError` taxonomy kind. -/
def PyExc.isWebhookError : PyExc → Bool
  | .webhookError _ => true
  | _ => false

/-- True exactly for the `ValidationError` taxonomy kind. -/
def PyExc.isValidationError : PyExc → Bool
  | .validationError _ => true
  | _ => false

/-- Whether a computation ended in an exception satisfying `p`. -/
def exceptErrIs {γ : Type u} (p : PyExc → Bool) : Except PyExc γ → Bool
  | .error e => p e
  | .ok _ => false

/-- The registry state of `AdapterManager.__init__`: the `_adapters` dict
and the `_default_adapter` optional name. -/
structure Manager (α : Type u) where
  adapters : List (String × α)
  default_adapter : Option String
  deriving DecidableEq, Repr

/-- Fresh manager (`AdapterManager()`). -/
def Manager.init {α : Type u} : Manager α := ⟨[], none⟩

/-- `AdapterManager.register_adapter` (manager.py lines 21-46): rejects an
empty name with `ValueError`, stores the adapter under the lower-cased
name, and makes it the default when the flag is set or when the registry
holds exactly one adapter and no default is configured. -/
def Manager.register_adapter {α : Type u} (m : Manager α) (name : String) (adapter : α)
    (set_as_default : Bool) : Except PyExc (Manager α) :=
  if name = "" then
    .error (.valueError "Adapter name must be a non-empty string")
  else
    let adapters' := dictInsert (pyLower name) adapter m.adapters
    let default' :=
      if set_as_default || (adapters'.length == 1 && pyFalsyStrOpt m.default_adapter) then
        some (pyLower name)
      else
        m.default_adapter
    .ok ⟨adapters', default'⟩

/-- The not-found message of `AdapterManager.get_adapter`, which
enumerates the currently registered adapter names. -/
def notFoundMsg (name : String) (keys : List String) : String :=
  "Payment adapter " ++ squote ++ name ++ squote ++ " not found. Available adapters: " ++ joinComma keys

/-- `AdapterManager.get_adapter` (manager.py lines 48-74): `none` resolves
to the default (raising `ValidationError` when none is configured), then
the lower-cased name is looked up, raising `ValidationError` with the
enumerating message when absent. -/
def Manager.get_adapter {α : Type u} (m : Manager α) (nameOpt : Option String) : Except PyExc α :=
  match nameOpt with
  | none =>
    if pyFalsyStrOpt m.default_adapter then
      .error (.validationError "No default payment adapter configured")
    else
      let name := m.default_adapter.getD ""
      match dictGet (pyLower name) m.adapters with
      | none => .error (.validationError (notFoundMsg name (dictKeys m.adapters)))
      | some a => .ok a
  | some name =>
    match dictGet (pyLower name) m.adapters with
    | none => .error (.validationError (notFoundMsg name (dictKeys m.adapters)))
    | some a => .ok a

/-- `AdapterManager.has_adapter` (manager.py lines 88-97). -/
def Manager.has_adapter {α : Type u} (m : Manager α) (name : String) : Bool :=
  (dictGet (pyLower name) m.adapters).isSome

/-- `AdapterManager.remove_adapter` (manager.py lines 99-122): raises
`ValidationError` for an unregistered name; when the removed adapter was
the default, promotes the first remaining key in insertion order (or
leaves the registry default-less when none remain). -/
def Manager.remove_adapter {α : Type u} (m : Manager α) (name : String) :
    Except PyExc (Manager α) :=
  let adapter_name := pyLower name
  match dictGet adapter_name m.adapters with
  | none => .error (.validationError ("Payment adapter " ++ squote ++ name ++ squote ++ " not found"))
  | some _ =>
    let adapters' := dictDel adapter_name m.adapters
    if m.default_adapter = some adapter_name then
      match dictKeys adapters' with
      | [] => .ok ⟨adapters', none⟩
      | k :: _ => .ok ⟨adapters', some k⟩
    else
      .ok ⟨adapters', m.default_adapter⟩

/-- The reachable-state invariant of the registry: a configured default
always names a registered adapter. -/
def Manager.defaultRegistered {α : Type u} (m : Manager α) : Prop :=
  ∀ d, m.default_adapter = some d → (dictGet d m.adapters).isSome = true

/-- `validate_amount` from `adapters/base.py` (lines 267-278): an amount is
valid exactly when it is positive (finiteness is automatic for the integer
model of `Decimal`). -/
def validate_amount (amount : Int) : Bool :=
  decide (0 < amount)

/-- Python/JSON values as produced by `json.loads` (numbers restricted to
integers, which covers every payload of the specification). -/
inductive Json where
  | null
  | bool (b : Bool)
  | num (n : Int)
  | str (s : String)
  | arr (xs : List Json)
  | obj (kvs : List (String × Json))
  deriving Repr

/-- Python `d.get(k, default)` on a JSON object's key-value list. -/
def jsonGetD (kvs : List (String × Json)) (k : String) (dflt : Json) : Json :=
  (dictGet k kvs).getD dflt

/-- One step of strict UTF-8 decoding, with fuel bounded by the byte count
(Python `bytes.decode("utf-8")`). Continuation bytes must lie in
`0x80..0xBF`; lead bytes `0xC0`, `0xC1` and `0xF5..0xFF` are invalid;
surrogate code points and the out-of-range lead combinations are
rejected as CPython does. -/
def utf8DecodeAux : Nat → List Nat → Option (List Char)
  | _, [] => some []
  | 0, _ :: _ => none
  | fuel + 1, b :: rest =>
    if b < 0x80 then
      (utf8DecodeAux fuel rest).map (fun cs => Char.ofNat b :: cs)
    else if b < 0xC2 then
      none
    else if b < 0xE0 then
      match rest with
      | b1 :: rest' =>
        if 0x80 ≤ b1 && b1 < 0xC0 then
          (utf8DecodeAux fuel rest').map
            (fun cs => Char.ofNat ((b - 0xC0) * 0x40 + (b1 - 0x80)) :: cs)
        else none
      | _ => none
    else if b < 0xF0 then
      match rest with
      | b1 :: b2 :: rest' =>
        let lo1 := if b = 0xE0 then 0xA0 else 0x80
        let hi1 := if b = 0xED then 0xA0 else 0xC0
        if (lo1 ≤ b1 && b1 < hi1) && (0x80 ≤ b2 && b2 < 0xC0) then
          (utf8DecodeAux fuel rest').map
            (fun cs => Char.ofNat ((b - 0xE0) * 0x1000 + (b1 - 0x80) * 0x40 + (b2 - 0x80)) :: cs)
        else none
      | _ => none
    else if b < 0xF5 then
      match rest with
      | b1 :: b2 :: b3 :: rest' =>
        let lo1 := if b = 0xF0 then 0x90 else 0x80
        let hi1 := if b = 0xF4 then 0x90 else 0xC0
        if (lo1 ≤ b1 && b1 < hi1) && (0x80 ≤ b2 && b2 < 0xC0) && (0x80 ≤ b3 && b3 < 0xC0) then
          (utf8DecodeAux fuel rest').map
            (fun cs =>
              Char.ofNat ((b - 0xF0) * 0x40000 + (b1 - 0x80) * 0x1000
                + (b2 - 0x80) * 0x40 + (b3 - 0x80)) :: cs)
        else none
      | _ => none
    else
      none

/-- Python `payload.decode("utf-8")`: `none` models `UnicodeDecodeError`. -/
def utf8Decode (bs : List Nat) : Option String :=
  (utf8DecodeAux bs.length bs).map List.asString

/-- The opening-brace character (written by code so that no string literal
needs to contain a brace). -/
def lbrace : Char := Char.ofNat 123

/-- The closing-brace character. -/
def rbrace : Char := Char.ofNat 125

/-- JSON insignificant whitespace. -/
def jsonIsWs (c : Char) : Bool :=
  c = ' ' || c = '\t' || c = '\n' || c = '\r'

/-- Skip insignificant whitespace. -/
def jsonSkipWs : List Char → List Char
  | [] => []
  | c :: rest => if jsonIsWs c then jsonSkipWs rest else c :: rest

/-- Parse the remainder of a JSON string literal (after the opening
quote), handling the simple escapes; `\u` escapes, absent from every
payload the specification mentions, are not modelled. -/
def jsonParseString : List Char → Option (String × List Char)
  | [] => none
  | c :: rest =>
    if c = '"' then
      some ("", rest)
    else if c = '\\' then
      match rest with
      | [] => none
      | e :: rest' =>
        let ec : Option Char :=
          if e = '"' then some '"'
          else if e = '\\' then some '\\'
          else if e = '/' then some '/'
          else if e = 'n' then some '\n'
          else if e = 't' then some '\t'
          else if e = 'r' then some '\r'
          else if e = 'b' then some (Char.ofNat 8)
          else if e = 'f' then some (Char.ofNat 12)
          else none
        match ec with
        | none => none
        | some c' => (jsonParseString rest').map (fun (s, r) => (⟨c' :: s.data⟩, r))
    else
      (jsonParseString rest).map (fun (s, r) => (⟨c :: s.data⟩, r))

/-- Parse a run of decimal digits into a natural number. -/
def jsonParseDigits : List Char → Nat → Option (Nat × List Char)
  | [], acc => some (acc, [])
  | c :: rest, acc =>
    if c.isDigit then jsonParseDigits rest (acc * 10 + (c.toNat - 48))
    else some (acc, c :: rest)

/-- Parse a JSON integer literal (an optional minus sign and digits;
fractional and exponent forms do not occur in any specified payload). -/
def jsonParseNumber : List Char → Option (Int × List Char)
  | [] => none
  | c :: rest =>
    if c = '-' then
      match rest with
      | d :: _ =>
        if d.isDigit then
          (jsonParseDigits rest 0).map (fun (n, r) => (-(n : Int), r))
        else none
      | [] => none
    else if c.isDigit then
      (jsonParseDigits (c :: rest) 0).map (fun (n, r) => ((n : Int), r))
    else
      none

mutual

/-- Recursive-descent parser for a JSON value, with fuel. -/
def jsonParseValue : Nat → List Char → Option (Json × List Char)
  | 0, _ => none
  | fuel + 1, cs =>
    match jsonSkipWs cs with
    | [] => none
    | c :: rest =>
      if c = '"' then
        (jsonParseString rest).map (fun (s, r) => (Json.str s, r))
      else if c = lbrace then
        jsonParseObjBody fuel rest
      else if c = '[' then
        jsonParseArrBody fuel rest
      else if c = 't' then
        match rest with
        | 'r' :: 'u' :: 'e' :: r => some (Json.bool true, r)
        | _ => none
      else if c = 'f' then
        match rest with
        | 'a' :: 'l' :: 's' :: 'e' :: r => some (Json.bool false, r)
        | _ => none
      else if c = 'n' then
        match rest with
        | 'u' :: 'l' :: 'l' :: r => some (Json.null, r)
        | _ => none
      else
        (jsonParseNumber (c :: rest)).map (fun (n, r) => (Json.num n, r))

/-- Parse an object body after the opening brace. -/
def jsonParseObjBody : Nat → List Char → Option (Json × List Char)
  | 0, _ => none
  | fuel + 1, cs =>
    match jsonSkipWs cs with
    | [] => none
    | c :: rest =>
      if c = rbrace then
        some (Json.obj [], rest)
      else if c = '"' then
        match jsonParseString rest with
        | none => none
        | some (k, r1) =>
          match jsonSkipWs r1 with
          | ':' :: r2 =>
            match jsonParseValue fuel r2 with
            | none => none
            | some (v, r3) => jsonParseObjRest fuel r3 [(k, v)]
          | _ => none
      else none

/-- Parse the continuation of an object body after one member. -/
def jsonParseObjRest : Nat → List Char → List (String × Json) → Option (Json × List Char)
  | 0, _, _ => none
  | fuel + 1, cs, acc =>
    match jsonSkipWs cs with
    | c :: rest =>
      if c = rbrace then
        some (Json.obj acc.reverse, rest)
      else if c = ',' then
        match jsonSkipWs rest with
        | '"' :: r1 =>
          match jsonParseString r1 with
          | none => none
          | some (k, r2) =>
            match jsonSkipWs r2 with
            | ':' :: r3 =>
              match jsonParseValue fuel r3 with
              | none => none
              | some (v, r4) => jsonParseObjRest fuel r4 ((k, v) :: acc)
            | _ => none
        | _ => none
      else none
    | [] => none

/-- Parse an array body after the opening bracket. -/
def jsonParseArrBody : Nat → List Char → Option (Json × List Char)
  | 0, _ => none
  | fuel + 1, cs =>
    match jsonSkipWs cs with
    | [] => none
    | c :: rest =>
      if c = ']' then
        some (Json.arr [], rest)
      else
        match jsonParseValue fuel (c :: rest) with
        | none => none
        | some (v, r1) => jsonParseArrRest fuel r1 [v]

/-- Parse the continuation of an array body after one element. -/
def jsonParseArrRest : Nat → List Char → List Json → Option (Json × List Char)
  | 0, _, _ => none
  | fuel + 1, cs, acc =>
    match jsonSkipWs cs with
    | c :: rest =>
      if c = ']' then
        some (Json.arr acc.reverse, rest)
      else if c = ',' then
        match jsonParseValue fuel rest with
        | none => none
        | some (v, r1) => jsonParseArrRest fuel r1 (v :: acc)
      else none
    | [] => none

end

/-- Python `json.loads`: parse one JSON value and require only whitespace
after it; `none` models `json.JSONDecodeError`. -/
def jsonParse (s : String) : Option Json :=
  match jsonParseValue (s.length + 1) s.data with
  | none => none
  | some (v, rest) =>
    match jsonSkipWs rest with
    | [] => some v
    | _ :: _ => none

/-- Bytes of an ASCII string, for writing concrete webhook payloads. -/
def strToBytes (s : String) : List Nat := s.data.map Char.toNat

/-- The state of `CustomAdapter.__init__` (custom/__init__.py lines
20-29): the signature header value considered valid. -/
structure CustomAdapter where
  expected_signature : String
  deriving DecidableEq, Repr

/-- A `CustomAdapter()` built with the default expected signature. -/
def CustomAdapter.mkDefault : CustomAdapter := ⟨"test_signature"⟩

/-- The payment dictionary returned by `CustomAdapter.create_payment`. -/
structure CustomPaymentResult where
  id : String
  amount : String
  currency : String
  status : String
  deriving DecidableEq, Repr

/-- `CustomAdapter.create_payment` (custom/__init__.py lines 31-39):
returns the mock result unconditionally — the amount is never
validated. -/
def CustomAdapter.create_payment (_c : CustomAdapter) (amount : Int) (currency : String) :
    Except PyExc CustomPaymentResult :=
  .ok ⟨"custom_mock", toString amount, currency, "created"⟩

/-- The normalized event returned by `CustomAdapter.webhook_verify`:
`data.get("type", "unknown")` and `data.get("data", {})`. -/
structure CustomEvent where
  type : Json
  data : Json
  deriving Repr

/-- `CustomAdapter.webhook_verify` (custom/__init__.py lines 50-69): a
falsy (missing or empty) signature header and a mismatching header raise
`WebhookError` before the payload is touched; an undecodable payload
raises `WebhookError` (from `UnicodeDecodeError`); an unparsable payload
raises `WebhookError` (from `json.JSONDecodeError`); a payload that
parses to a non-object JSON value reaches `data.get(...)`, which in
Python raises an uncaught `AttributeError`. -/
def CustomAdapter.webhook_verify (c : CustomAdapter) (payload : List Nat)
    (sig_header : Option String) : Except PyExc CustomEvent :=
  if pyFalsyStrOpt sig_header then
    .error (.webhookError "Missing webhook signature header")
  else if sig_header.getD "" ≠ c.expected_signature then
    .error (.webhookError "Invalid webhook signature")
  else
    match utf8Decode payload with
    | none => .error (.webhookError "Invalid webhook payload encoding")
    | some decoded_payload =>
      match jsonParse decoded_payload with
      | none => .error (.webhookError "Invalid webhook payload")
      | some (Json.obj kvs) =>
        .ok ⟨jsonGetD kvs "type" (Json.str "unknown"), jsonGetD kvs "data" (Json.obj [])⟩
      | some _ =>
        .error (.attributeError "object has no attribute get")

/-- The configuration state of `StripeAdapter.__init__` that the embedded
methods read (stripe/__init__.py lines 54-85). -/
structure StripeCfg where
  webhook_secret : String
  platform_account_id : Option String
  test_mode : Bool
  has_custom_fx : Bool
  deriving DecidableEq, Repr

/-- The PaymentIntent request that `StripeAdapter.create_payment` sends to
`stripe.PaymentIntent.create` (stripe/__init__.py lines 258-285). -/
structure PaymentIntentData where
  amount : Int
  currency : String
  customer : String
  description : Option String
  metadata : List (String × String)
  automatic_payment_methods_enabled : Bool
  payment_method_types : Option (List String)
  deriving DecidableEq, Repr

/-- Python truthiness of an `Optional[List[str]]`. -/
def pyTruthyListOpt : Option (List String) → Bool
  | none => false
  | some l => !l.isEmpty

/-- The request-construction part of `StripeAdapter.create_payment`
(stripe/__init__.py lines 233-285): `int(amount)` (identity on the
integer model), the custom-FX metadata tag, `currency.lower()`, and the
payment-method fields. No amount validation occurs before the processor
call. -/
def StripeAdapter.paymentIntentData (cfg : StripeCfg) (amount : Int) (currency : String)
    (customer_id : String) (description : Option String)
    (metadata : Option (List (String × String)))
    (payment_method_types : Option (List String)) (apply_custom_fx : Bool) :
    PaymentIntentData :=
  let amount_int : Int := amount
  let metadata :=
    if apply_custom_fx && cfg.has_custom_fx then
      some (dictInsert "custom_fx_applied" "true" (metadata.getD []))
    else
      metadata
  { amount := amount_int
    currency := pyLower currency
    customer := customer_id
    description := description
    metadata := metadata.getD []
    automatic_payment_methods_enabled := !pyTruthyListOpt payment_method_types
    payment_method_types :=
      if pyTruthyListOpt payment_method_types then payment_method_types else none }

/-- The Connect-account creation result returned by the processor
(`stripe.Account.create`), modelled as an oracle input. -/
structure ConnectAccountInfo where
  id : String
  charges_enabled : Bool
  payouts_enabled : Bool
  deriving DecidableEq, Repr

/-- The outcome of `StripeAdapter.create_connect_account`: the metadata
sent with the account-creation request, and the response dictionary with
its optional onboarding URL. -/
structure ConnectAccountOutcome where
  request_metadata : List (String × String)
  account_id : String
  type : String
  country : String
  charges_enabled : Bool
  payouts_enabled : Bool
  onboarding_url : Option String
  deriving DecidableEq, Repr

/-- Python `str(b)` for a boolean. -/
def pyStrBool (b : Bool) : String := if b then "True" else "False"

/-- Python dict-literal construction ending in `**extra`: the pairs of
`extra` are inserted in order into `base`, a repeated key overriding the
earlier value in place. -/
def pyDictMerge (base extra : List (String × String)) : List (String × String) :=
  extra.foldl (fun d kv => dictInsert kv.1 kv.2 d) base

/-- `StripeAdapter.create_connect_account` (stripe/__init__.py lines
146-211), with the processor calls (`stripe.Account.create`,
`stripe.AccountLink.create`) supplied as oracle arguments `account` and
`link_url`: the request metadata is the dict literal holding
`recipient_id` and `kyc_bypassed = str(bypass_kyc and admin_override)`
with the caller metadata unpacked last (so a caller-supplied
`kyc_bypassed` key overrides the computed value), and the onboarding
link is generated unless both flags are set. -/
def StripeAdapter.create_connect_account (recipient_id email country account_type : String)
    (bypass_kyc admin_override : Bool) (metadata : Option (List (String × String)))
    (account : ConnectAccountInfo) (link_url : String) : ConnectAccountOutcome :=
  let _ := email
  let request_metadata :=
    pyDictMerge
      [("recipient_id", recipient_id), ("kyc_bypassed", pyStrBool (bypass_kyc && admin_override))]
      (metadata.getD [])
  { request_metadata := request_metadata
    account_id := account.id
    type := account_type
    country := country
    charges_enabled := account.charges_enabled
    payouts_enabled := account.payouts_enabled
    onboarding_url := if !(bypass_kyc && admin_override) then some link_url else none }

/-- The refund request that `StripeAdapter.refund_payment` sends to
`stripe.Refund.create` (stripe/__init__.py lines 498-508): the `amount`
key is added only when the argument is truthy (present and non-zero), and
`reason` only when present. -/
structure RefundRequest where
  payment_intent : String
  metadata : List (String × String)
  amount : Option Int
  reason : Option String
  deriving DecidableEq, Repr

/-- Python truthiness of an `Optional[Decimal]` on the integer model. -/
def pyTruthyIntOpt : Option Int → Bool
  | none => false
  | some a => a ≠ 0

/-- The request-construction part of `StripeAdapter.refund_payment`
(stripe/__init__.py lines 489-508). -/
def StripeAdapter.refundRequest (payment_intent_id : String) (amount : Option Int)
    (reason : Option String) (metadata : Option (List (String × String))) : RefundRequest :=
  { payment_intent := payment_intent_id
    metadata := metadata.getD []
    amount := if pyTruthyIntOpt amount then amount.map (fun a => a) else none
    reason := reason }

/-- An event returned by `stripe.Webhook.construct_event`. -/
structure StripeEvent where
  id : String
  type : String
  created : Int
  livemode : Bool
  dataObject : List (String × Json)
  deriving Repr

/-- The outcome of the `stripe.Webhook.construct_event` SDK call, which is
external to the repository: success, a `SignatureVerificationError`, or
any other exception (with its message). -/
inductive ConstructEventOutcome where
  | ok (e : StripeEvent)
  | sigVerificationError (msg : String)
  | otherError (msg : String)
  deriving Repr

/-- The normalized webhook response of `StripeAdapter.webhook_verify`. -/
structure StripeWebhookResponse where
  id : String
  type : String
  created : Int
  livemode : Bool
  data : List (String × Json)
  deriving Repr

/-- The `evidence_due_by` extraction
`event_object.get("evidence_details", \x7b\x7d).get("due_by")`: calling
`.get` on a non-dict value raises `AttributeError` (caught by the blanket
handler of `webhook_verify`). -/
def evidenceDueBy (obj : List (String × Json)) : Except PyExc Json :=
  match jsonGetD obj "evidence_details" (Json.obj []) with
  | Json.obj kvs => .ok (jsonGetD kvs "due_by" Json.null)
  | _ => .error (.attributeError "object has no attribute get")

/-- `StripeAdapter._extract_webhook_data` (stripe/__init__.py lines
611-663): the common fields plus the family-specific fields selected by
`event_type.startswith(...)`. -/
def StripeAdapter.extract_webhook_data (event_type : String)
    (obj : List (String × Json)) : Except PyExc (List (String × Json)) :=
  let g := fun k => jsonGetD obj k Json.null
  let data := [("id", g "id"), ("object", g "object"), ("created", g "created"),
               ("livemode", g "livemode")]
  if event_type.startsWith "payment_intent" then
    .ok (data ++ [("amount", g "amount"), ("currency", g "currency"),
                  ("customer", g "customer"), ("status", g "status"),
                  ("metadata", g "metadata")])
  else if event_type.startsWith "transfer" then
    .ok (data ++ [("amount", g "amount"), ("currency", g "currency"),
                  ("destination", g "destination"), ("metadata", g "metadata")])
  else if event_type.startsWith "payout" then
    .ok (data ++ [("amount", g "amount"), ("currency", g "currency"),
                  ("arrival_date", g "arrival_date"), ("status", g "status"),
                  ("type", g "type")])
  else if event_type.startsWith "account" then
    .ok (data ++ [("charges_enabled", g "charges_enabled"),
                  ("payouts_enabled", g "payouts_enabled"),
                  ("requirements", g "requirements")])
  else if event_type.startsWith "charge.dispute" then
    match evidenceDueBy obj with
    | .error e => .error e
    | .ok due =>
      .ok (data ++ [("amount", g "amount"), ("currency", g "currency"),
                    ("reason", g "reason"), ("status", g "status"),
                    ("evidence_due_by", due)])
  else
    .ok data

/-- The message text of an exception, as interpolated by the blanket
handler `f"Failed to process webhook: \x7be\x7d"`. -/
def PyExc.msgText : PyExc → String
  | .paymentError m => m
  | .validationError m => m
  | .insufficientFundsError m => m
  | .paymentNotFoundError m => m
  | .paymentProcessingError m => m
  | .refundError m => m
  | .webhookError m => m
  | .rateLimitError m => m
  | .authenticationError m => m
  | .valueError m => m
  | .attributeError m => m

/-- `StripeAdapter.webhook_verify` (stripe/__init__.py lines 561-609),
with the SDK call supplied as the `outcome` argument: on
`SignatureVerificationError` the adapter raises
`ValidationError("Invalid webhook signature")`; on any other exception —
from the SDK call or from building the response — the blanket handler
raises `PaymentError("Failed to process webhook: ...")`; on success it
returns the normalized response built by `_extract_webhook_data`. -/
def StripeAdapter.webhook_verify (outcome : ConstructEventOutcome) :
    Except PyExc StripeWebhookResponse :=
  match outcome with
  | .sigVerificationError _ =>
    .error (.validationError "Invalid webhook signature")
  | .otherError msg =>
    .error (.paymentError ("Failed to process webhook: " ++ msg))
  | .ok e =>
    match StripeAdapter.extract_webhook_data e.type e.dataObject with
    | .error exc =>
      .error (.paymentError ("Failed to process webhook: " ++ exc.msgText))
    | .ok d =>
      .ok { id := e.id, type := e.type, created := e.created, livemode := e.livemode, data := d }

/-- One probe of the short-circuiting character-by-character string
equality that the comparison `sig_header != self.expected_signature`
performs: the probe count is `1 +` the length of the common leading
segment (capped by a mismatch or the end of either string). -/
def eqScanProbes : List Char → List Char → Nat
  | [], _ => 0
  | _ :: _, [] => 0
  | a :: s, b :: t => 1 + (if a = b then eqScanProbes s t else 0)

/-- The short-circuiting equality itself (the semantic content of the
Python `!=` comparison on strings, negated). -/
def eqScan : List Char → List Char → Bool
  | [], [] => true
  | [], _ :: _ => false
  | _ :: _, [] => false
  | a :: s, b :: t => if a = b then eqScan s t else false

/-! Helper lemmas shared by the claim theorems. -/

theorem char_le_toNat {a b : Char} (h : a ≤ b) : a.toNat ≤ b.toNat := h

theorem char_toNat_ofNat_small (n : Nat) (h : n < 0xd800) : (Char.ofNat n).toNat = n := by
  have hv : n.isValidChar := Or.inl h
  simp only [Char.ofNat, hv, dif_pos, Char.ofNatAux, Char.toNat]
  simp [UInt32.toNat, UInt32.ofNatCore]

theorem lowerChar_idem (c : Char) : lowerChar (lowerChar c) = lowerChar c := by
  simp only [lowerChar]
  by_cases h1 : ('A' ≤ c && c ≤ 'Z') = true
  · simp only [if_pos h1]
    have h2 := Bool.and_eq_true_iff.mp h1
    have hA : 'A'.toNat ≤ c.toNat := char_le_toNat (of_decide_eq_true h2.1)
    have hZ : c.toNat ≤ 'Z'.toNat := char_le_toNat (of_decide_eq_true h2.2)
    have hAv : 'A'.toNat = 65 := rfl
    have hZv : 'Z'.toNat = 90 := rfl
    have ht : (Char.ofNat (c.toNat + 32)).toNat = c.toNat + 32 :=
      char_toNat_ofNat_small _ (by omega)
    rw [if_neg]
    intro hcon
    have h3 := Bool.and_eq_true_iff.mp hcon
    have g1 : 'A'.toNat ≤ (Char.ofNat (c.toNat + 32)).toNat :=
      char_le_toNat (of_decide_eq_true h3.1)
    have g2 : (Char.ofNat (c.toNat + 32)).toNat ≤ 'Z'.toNat :=
      char_le_toNat (of_decide_eq_true h3.2)
    omega
  · simp only [if_neg h1]

theorem map_lowerChar_idem (l : List Char) :
    (l.map lowerChar).map lowerChar = l.map lowerChar := by
  induction l with
  | nil => rfl
  | cons c cs ih => simp [lowerChar_idem, ih]

theorem pyLower_idem (s : String) : pyLower (pyLower s) = pyLower s := by
  cases s with
  | mk l =>
    show String.mk ((l.map lowerChar).map lowerChar) = String.mk (l.map lowerChar)
    rw [map_lowerChar_idem]

theorem pyLower_eq_empty_iff (s : String) : pyLower s = "" ↔ s = "" := by
  cases s with
  | mk l =>
    rw [String.ext_iff, String.ext_iff]
    show l.map lowerChar = [] ↔ l = []
    simp

theorem pyFalsyStrOpt_some_pyLower {s : String} (h : s ≠ "") :
    pyFalsyStrOpt (some (pyLower s)) = false := by
  simp only [pyFalsyStrOpt, decide_eq_false_iff_not]
  exact fun hc => h ((pyLower_eq_empty_iff s).mp hc)

theorem joinComma_decomp (L : List String) (k : String) (h : k ∈ L) :
    ∃ x y, (joinComma L).data = x ++ (k.data ++ y) := by
  induction L with
  | nil => cases h
  | cons s rest ih =>
    cases rest with
    | nil =>
      have hk : k = s := by simpa using h
      subst hk
      exact ⟨[], [], by simp [joinComma]⟩
    | cons s2 rest2 =>
      rcases List.mem_cons.mp h with hk | h2
      · subst hk
        exact ⟨[], (", " ++ joinComma (s2 :: rest2)).data,
          by simp [joinComma, String.data_append]⟩
      · obtain ⟨x, y, hxy⟩ := ih h2
        refine ⟨(s ++ ", ").data ++ x, y, ?_⟩
        show (joinComma (s :: s2 :: rest2)).data = _
        rw [show joinComma (s :: s2 :: rest2) = s ++ ", " ++ joinComma (s2 :: rest2) from rfl]
        simp [String.data_append, hxy]

theorem dictGet_dictDel_ne {α : Type u} (d k : String) (l : List (String × α)) (h : d ≠ k) :
    dictGet d (dictDel k l) = dictGet d l := by
  induction l with
  | nil => rfl
  | cons p rest ih =>
    obtain ⟨k', v'⟩ := p
    by_cases hk : k' = k
    · subst hk
      have e1 : dictDel k' ((k', v') :: rest) = rest := by
        show (if k' = k' then rest else (k', v') :: dictDel k' rest) = rest
        rw [if_pos rfl]
      rw [e1]
      show dictGet d rest = (if k' = d then some v' else dictGet d rest)
      rw [if_neg (fun hc => h hc.symm)]
    · simp only [dictDel, if_neg hk, dictGet]
      by_cases hd : k' = d
      · simp [hd]
      · simp [hd, ih]

theorem dictGet_dictInsert_ne {α : Type u} (k k1 : String) (v1 : α) (l : List (String × α))
    (h : k1 ≠ k) : dictGet k (dictInsert k1 v1 l) = dictGet k l := by
  induction l with
  | nil => simp [dictInsert, dictGet, h]
  | cons p rest ih =>
    obtain ⟨k', v'⟩ := p
    by_cases hk : k' = k1
    · subst hk
      simp only [dictInsert, if_pos rfl, dictGet, if_neg h]
    · simp only [dictInsert, if_neg hk, dictGet]
      by_cases hd : k' = k
      · simp [hd]
      · simp [hd, ih]

theorem dictGet_pyDictMerge_of_absent (k : String) (base extra : List (String × String))
    (h : dictGet k extra = none) : dictGet k (pyDictMerge base extra) = dictGet k base := by
  induction extra generalizing base with
  | nil => rfl
  | cons p rest ih =>
    obtain ⟨k1, v1⟩ := p
    have hne : k1 ≠ k := by
      intro hc
      rw [show dictGet k ((k1, v1) :: rest) = if k1 = k then some v1 else dictGet k rest
        from rfl, if_pos hc] at h
      cases h
    have hrest : dictGet k rest = none := by
      rw [show dictGet k ((k1, v1) :: rest) = if k1 = k then some v1 else dictGet k rest
        from rfl, if_neg hne] at h
      exact h
    show dictGet k (pyDictMerge (dictInsert k1 v1 base) rest) = dictGet k base
    rw [ih (dictInsert k1 v1 base) hrest, dictGet_dictInsert_ne k k1 v1 base hne]

theorem register_first_default {α : Type u} (name : String) (a : α) (flag : Bool)
    (m' : Manager α) (hn : name ≠ "")
    (h : (Manager.init (α := α)).register_adapter name a flag = .ok m') :
    m' = ⟨[(pyLower name, a)], some (pyLower name)⟩ := by
  simp only [Manager.register_adapter, Manager.init, if_neg hn, dictInsert,
    pyFalsyStrOpt] at h
  simp at h
  exact h.symm

theorem register_keeps_default {α : Type u} (m : Manager α) (name : String) (a : α)
    (m' : Manager α) (hd : pyFalsyStrOpt m.default_adapter = false)
    (h : m.register_adapter name a false = .ok m') :
    m'.default_adapter = m.default_adapter := by
  by_cases hn : name = ""
  · simp [Manager.register_adapter, hn] at h
  · simp only [Manager.register_adapter, if_neg hn, hd, Bool.and_false, Bool.false_or,
      if_false, Except.ok.injEq] at h
    rw [← h]
    simp

/-! Claim theorems. -/

/-- C1 (code bug): the specification requires `create_payment` to fail
with `ValidationError` for every amount `a ≤ 0` on every registered
adapter, but no adapter validates the amount. At the failing input
`amount = -5`: `CustomAdapter.create_payment` returns a `created` result,
even though the contract utility `validate_amount` of base.py classifies
`-5` as invalid, and `StripeAdapter.create_payment` builds the
PaymentIntent request for the processor with amount `-5` instead of
raising. -/
theorem create_payment_accepts_nonpositive_amount :
    CustomAdapter.mkDefault.create_payment (-5) "USD"
      = .ok ⟨"custom_mock", "-5", "USD", "created"⟩
    ∧ validate_amount (-5) = false
    ∧ (StripeAdapter.paymentIntentData ⟨"whsec_test", none, false, false⟩ (-5) "USD" "cus_1"
        none none none false).amount = -5 :=
  ⟨rfl, rfl, rfl⟩

/-- C2 (counterexample): the claim says every adapter classifies a
signature-verification failure as `WebhookError`; the Production Gateway
Adapter (`StripeAdapter.webhook_verify`) classifies it as
`ValidationError` instead. -/
theorem stripe_sig_failure_is_validation_error :
    StripeAdapter.webhook_verify (.sigVerificationError "signature mismatch")
      = .error (.validationError "Invalid webhook signature")
    ∧ exceptErrIs PyExc.isWebhookError
        (StripeAdapter.webhook_verify (.sigVerificationError "signature mismatch")) = false :=
  ⟨rfl, rfl⟩

/-- C2 (amended): the Reference Adapter raises `WebhookError` on a
missing/empty signature header, on a mismatching header, on a payload
that does not decode as UTF-8, and on a payload that does not parse as
JSON, and its result does not depend on the payload unless signature
verification succeeds; the Production Gateway Adapter classifies a
signature-verification failure as `ValidationError` and any other
webhook-processing failure as the base `PaymentError`. -/
theorem webhook_error_classification :
    (∀ (c : CustomAdapter) (payload : List Nat) (sig : Option String),
       pyFalsyStrOpt sig = true →
       c.webhook_verify payload sig = .error (.webhookError "Missing webhook signature header"))
    ∧ (∀ (c : CustomAdapter) (payload : List Nat) (s : String),
       s ≠ "" → s ≠ c.expected_signature →
       c.webhook_verify payload (some s) = .error (.webhookError "Invalid webhook signature"))
    ∧ (∀ (c : CustomAdapter) (p1 p2 : List Nat) (sig : Option String),
       pyFalsyStrOpt sig = true ∨ sig.getD "" ≠ c.expected_signature →
       c.webhook_verify p1 sig = c.webhook_verify p2 sig)
    ∧ (∀ (c : CustomAdapter) (payload : List Nat),
       c.expected_signature ≠ "" → utf8Decode payload = none →
       c.webhook_verify payload (some c.expected_signature)
         = .error (.webhookError "Invalid webhook payload encoding"))
    ∧ (∀ (c : CustomAdapter) (payload : List Nat) (s : String),
       c.expected_signature ≠ "" → utf8Decode payload = some s → jsonParse s = none →
       c.webhook_verify payload (some c.expected_signature)
         = .error (.webhookError "Invalid webhook payload"))
    ∧ (∀ msg : String, StripeAdapter.webhook_verify (.sigVerificationError msg)
         = .error (.validationError "Invalid webhook signature"))
    ∧ (∀ msg : String, StripeAdapter.webhook_verify (.otherError msg)
         = .error (.paymentError ("Failed to process webhook: " ++ msg))) := by
  refine ⟨?_, ?_, ?_, ?_, ?_, fun _ => rfl, fun _ => rfl⟩
  · intro c payload sig h
    simp [CustomAdapter.webhook_verify, h]
  · intro c payload s hne hmm
    simp [CustomAdapter.webhook_verify, pyFalsyStrOpt, hne, hmm]
  · intro c p1 p2 sig h
    rcases h with h | h
    · simp [CustomAdapter.webhook_verify, h]
    · cases hf : pyFalsyStrOpt sig <;>
        simp [CustomAdapter.webhook_verify, hf, h]
  · intro c payload hne hdec
    simp [CustomAdapter.webhook_verify, pyFalsyStrOpt, hne, hdec]
  · intro c payload s hne hdec hjson
    simp [CustomAdapter.webhook_verify, pyFalsyStrOpt, hne, hdec, hjson]

/-- Witness for the amended C2 theorem at concrete inputs. -/
theorem webhook_error_classification_witness :
    CustomAdapter.mkDefault.webhook_verify (strToBytes "x") none
      = .error (.webhookError "Missing webhook signature header")
    ∧ CustomAdapter.mkDefault.webhook_verify (strToBytes "x") (some "wrong")
      = .error (.webhookError "Invalid webhook signature")
    ∧ CustomAdapter.mkDefault.webhook_verify [0xff] (some "test_signature")
      = .error (.webhookError "Invalid webhook payload encoding")
    ∧ CustomAdapter.mkDefault.webhook_verify (strToBytes "not json") (some "test_signature")
      = .error (.webhookError "Invalid webhook payload") :=
  ⟨webhook_error_classification.1 CustomAdapter.mkDefault (strToBytes "x") none rfl,
   (webhook_error_classification.2.1) CustomAdapter.mkDefault (strToBytes "x") "wrong"
     (by decide) (by decide),
   (webhook_error_classification.2.2.2.1) CustomAdapter.mkDefault [0xff]
     (by decide) rfl,
   (webhook_error_classification.2.2.2.2.1) CustomAdapter.mkDefault (strToBytes "not json")
     "not json" (by decide) rfl rfl⟩

/-- C3 (code bug): the Reference Adapter behaves as claimed on the
correct signature (returning the `ping` event), on a mismatching
signature, on a missing header, and on an undecodable payload — but on
the decodable, well-formed-JSON, non-object payload `[1]` it raises an
uncaught `AttributeError` from `data.get(...)` instead of the claimed
`WebhookError`. -/
theorem reference_webhook_verify_behaviour :
    CustomAdapter.mkDefault.webhook_verify
        (strToBytes "\x7b\"type\":\"ping\",\"data\":\x7b\"x\":1\x7d\x7d")
        (some "test_signature")
      = .ok ⟨Json.str "ping", Json.obj [("x", Json.num 1)]⟩
    ∧ CustomAdapter.mkDefault.webhook_verify
        (strToBytes "\x7b\"type\":\"ping\",\"data\":\x7b\"x\":1\x7d\x7d") (some "wrong")
      = .error (.webhookError "Invalid webhook signature")
    ∧ CustomAdapter.mkDefault.webhook_verify
        (strToBytes "\x7b\"type\":\"ping\",\"data\":\x7b\"x\":1\x7d\x7d") none
      = .error (.webhookError "Missing webhook signature header")
    ∧ CustomAdapter.mkDefault.webhook_verify [0xff] (some "test_signature")
      = .error (.webhookError "Invalid webhook payload encoding")
    ∧ CustomAdapter.mkDefault.webhook_verify (strToBytes "[1]") (some "test_signature")
      = .error (.attributeError "object has no attribute get")
    ∧ PyExc.isWebhookError (.attributeError "object has no attribute get") = false :=
  ⟨rfl, rfl, rfl, rfl, rfl, rfl⟩

/-- C10 (code bug): the claim and the specification require a
constant-time signature comparison, but the source compares with the
short-circuiting string inequality `sig_header != self.expected_signature`.
`eqScan` is that comparison (provably plain string equality) and
`eqScanProbes` counts its character probes: against the configured
`"test_signature"`, the same-length candidates `"Xest_signature"` and
`"test_signaturX"` are both rejected, yet cost 1 and 14 probes
respectively — the running time depends on the length of the matching
leading segment. -/
theorem signature_comparison_probe_count_depends_on_common_segment :
    (∀ s t : List Char, eqScan s t = decide (s = t))
    ∧ ("Xest_signature" : String).length = ("test_signaturX" : String).length
    ∧ eqScanProbes CustomAdapter.mkDefault.expected_signature.data
        ("Xest_signature" : String).data = 1
    ∧ eqScanProbes CustomAdapter.mkDefault.expected_signature.data
        ("test_signaturX" : String).data = 14
    ∧ CustomAdapter.mkDefault.webhook_verify (strToBytes "x") (some "Xest_signature")
      = .error (.webhookError "Invalid webhook signature")
    ∧ CustomAdapter.mkDefault.webhook_verify (strToBytes "x") (some "test_signaturX")
      = .error (.webhookError "Invalid webhook signature") := by
  refine ⟨?_, rfl, rfl, rfl, rfl, rfl⟩
  intro s t
  induction s generalizing t with
  | nil => cases t <;> simp [eqScan]
  | cons a s ih =>
    cases t with
    | nil => simp [eqScan]
    | cons b t =>
      by_cases hab : a = b
      · subst hab
        simp [eqScan, ih]
      · simp [eqScan, hab]

/-- C4 (confirmed): starting from a fresh registry, the first adapter
registered becomes default whatever the flag says; registering a second
name without the flag leaves the first as default; and repeating that
second registration (same name, `set_as_default = false`) still leaves
the default unchanged. -/
theorem register_adapter_first_wins {α : Type u} (n1 n2 : String) (a1 a2 a2' : α)
    (flag : Bool) (m1 m2 m3 : Manager α) (h1 : n1 ≠ "") (_h2 : n2 ≠ "")
    (r1 : (Manager.init (α := α)).register_adapter n1 a1 flag = .ok m1)
    (r2 : m1.register_adapter n2 a2 false = .ok m2)
    (r3 : m2.register_adapter n2 a2' false = .ok m3) :
    m1.default_adapter = some (pyLower n1)
    ∧ m2.default_adapter = some (pyLower n1)
    ∧ m3.default_adapter = some (pyLower n1) := by
  have hm1 := register_first_default n1 a1 flag m1 h1 r1
  have hd1 : m1.default_adapter = some (pyLower n1) := by rw [hm1]
  have hf1 : pyFalsyStrOpt m1.default_adapter = false := by
    rw [hd1]; exact pyFalsyStrOpt_some_pyLower h1
  have hd2 : m2.default_adapter = m1.default_adapter :=
    register_keeps_default m1 n2 a2 m2 hf1 r2
  have hf2 : pyFalsyStrOpt m2.default_adapter = false := by rw [hd2]; exact hf1
  have hd3 : m3.default_adapter = m2.default_adapter :=
    register_keeps_default m2 n2 a2' m3 hf2 r3
  exact ⟨hd1, by rw [hd2, hd1], by rw [hd3, hd2, hd1]⟩

/-- Witness for the C4 theorem: registering `"custom"` then `"stripe"`
twice on a fresh registry of numbered adapters. -/
theorem register_adapter_first_wins_witness :
    ({ adapters := [("custom", 1)], default_adapter := some "custom" } :
        Manager Nat).default_adapter = some (pyLower "custom")
    ∧ ({ adapters := [("custom", 1), ("stripe", 2)], default_adapter := some "custom" } :
        Manager Nat).default_adapter = some (pyLower "custom")
    ∧ ({ adapters := [("custom", 1), ("stripe", 3)], default_adapter := some "custom" } :
        Manager Nat).default_adapter = some (pyLower "custom") :=
  register_adapter_first_wins "custom" "stripe" 1 2 3 false _ _ _
    (by decide) (by decide) rfl rfl rfl

/-- C5 (confirmed): `remove_adapter` raises `ValidationError` for an
unregistered name; removing the default promotes the first remaining
adapter in insertion order (or leaves the registry default-less when none
remain), after which `get_adapter(None)` raises `ValidationError`; and
removal preserves the invariant that the single optional default — the
registry holds at most one, being one optional field — names a
registered adapter. -/
theorem remove_adapter_default_promotion {α : Type u} :
    (∀ (m : Manager α) (name : String), dictGet (pyLower name) m.adapters = none →
        m.remove_adapter name = .error (.validationError
          ("Payment adapter " ++ squote ++ name ++ squote ++ " not found")))
    ∧ (∀ (m m' : Manager α) (name : String), m.default_adapter = some (pyLower name) →
        m.remove_adapter name = .ok m' →
        m'.adapters = dictDel (pyLower name) m.adapters
        ∧ m'.default_adapter = (dictKeys m'.adapters).head?)
    ∧ (∀ (m m' : Manager α) (name : String), m.defaultRegistered →
        m.remove_adapter name = .ok m' → m'.adapters = [] →
        m'.default_adapter = none
        ∧ m'.get_adapter none
            = .error (.validationError "No default payment adapter configured"))
    ∧ (∀ (m m' : Manager α) (name : String), m.defaultRegistered →
        m.remove_adapter name = .ok m' → m'.defaultRegistered) := by
  refine ⟨?_, ?_, ?_, ?_⟩
  · intro m name h
    simp only [Manager.remove_adapter, h]
  · intro m m' name hd hr
    simp only [Manager.remove_adapter, hd, if_pos rfl] at hr
    cases hg : dictGet (pyLower name) m.adapters with
    | none => rw [hg] at hr; cases hr
    | some v =>
      rw [hg] at hr
      cases hk : dictKeys (dictDel (pyLower name) m.adapters) with
      | nil => rw [hk] at hr; cases hr; exact ⟨rfl, by simp [hk]⟩
      | cons k ks => rw [hk] at hr; cases hr; exact ⟨rfl, by simp [hk]⟩
  · intro m m' name hreg hr he
    simp only [Manager.remove_adapter] at hr
    cases hg : dictGet (pyLower name) m.adapters with
    | none => rw [hg] at hr; cases hr
    | some v =>
      rw [hg] at hr
      by_cases hd : m.default_adapter = some (pyLower name)
      · rw [if_pos hd] at hr
        cases hk : dictKeys (dictDel (pyLower name) m.adapters) with
        | nil =>
          rw [hk] at hr; cases hr
          exact ⟨rfl, rfl⟩
        | cons k ks =>
          rw [hk] at hr; cases hr
          rw [show dictDel (pyLower name) m.adapters = [] from he] at hk
          cases hk
      · rw [if_neg hd] at hr
        cases hr
        cases hdm : m.default_adapter with
        | none => exact ⟨rfl, by simp [Manager.get_adapter, pyFalsyStrOpt]⟩
        | some d =>
          exfalso
          have hs := hreg d hdm
          have hne : d ≠ pyLower name := fun hc => hd (by rw [hdm, hc])
          have hdel := dictGet_dictDel_ne d (pyLower name) m.adapters hne
          rw [show dictDel (pyLower name) m.adapters = [] from he] at hdel
          rw [← hdel] at hs
          simp [dictGet] at hs
  · intro m m' name hreg hr
    simp only [Manager.remove_adapter] at hr
    cases hg : dictGet (pyLower name) m.adapters with
    | none => rw [hg] at hr; cases hr
    | some v =>
      rw [hg] at hr
      by_cases hd : m.default_adapter = some (pyLower name)
      · rw [if_pos hd] at hr
        cases hk : dictKeys (dictDel (pyLower name) m.adapters) with
        | nil =>
          rw [hk] at hr; cases hr
          intro d hdd; cases hdd
        | cons k ks =>
          rw [hk] at hr; cases hr
          intro d hdd
          cases Option.some.inj hdd
          cases hdel : dictDel (pyLower name) m.adapters with
          | nil => rw [hdel] at hk; cases hk
          | cons p rest =>
            rw [hdel] at hk
            obtain ⟨pk, pv⟩ := p
            have hk1 : pk = k := by
              have := congrArg List.head? hk
              simpa [dictKeys] using this
            simp [dictGet, hk1]
      · rw [if_neg hd] at hr
        cases hr
        intro d hdd
        have hs := hreg d hdd
        have hne : d ≠ pyLower name := fun hc => hd (by rw [hdd, hc])
        show (dictGet d (dictDel (pyLower name) m.adapters)).isSome = true
        rw [dictGet_dictDel_ne d (pyLower name) m.adapters hne]
        exact hs

/-- Witness for the C5 theorem: on a registry holding `"a"` (default) and
`"b"`, removing an unknown name fails, removing `"a"` promotes `"b"`, and
removing the last adapter leaves a default-less registry that fails
`get_adapter(None)`. -/
theorem remove_adapter_default_promotion_witness :
    (Manager.mk [("a", 1), ("b", 2)] (some "a") : Manager Nat).remove_adapter "z"
      = .error (.validationError ("Payment adapter " ++ squote ++ "z" ++ squote ++ " not found"))
    ∧ ((Manager.mk [("b", 2)] (some "b") : Manager Nat).adapters
        = dictDel (pyLower "a") [("a", 1), ("b", 2)]
      ∧ (Manager.mk [("b", 2)] (some "b") : Manager Nat).default_adapter
        = (dictKeys (Manager.mk [("b", 2)] (some "b") : Manager Nat).adapters).head?)
    ∧ ((Manager.mk ([] : List (String × Nat)) none).default_adapter = none
      ∧ (Manager.mk ([] : List (String × Nat)) none).get_adapter none
        = .error (.validationError "No default payment adapter configured"))
    ∧ (Manager.mk [("b", 2)] (some "b") : Manager Nat).defaultRegistered :=
  ⟨remove_adapter_default_promotion.1 ⟨[("a", 1), ("b", 2)], some "a"⟩ "z" rfl,
   remove_adapter_default_promotion.2.1 ⟨[("a", 1), ("b", 2)], some "a"⟩
     ⟨[("b", 2)], some "b"⟩ "a" rfl rfl,
   remove_adapter_default_promotion.2.2.1 ⟨[("a", 1)], some "a"⟩ ⟨[], none⟩ "a"
     (fun d hd => by cases Option.some.inj hd; rfl) rfl rfl,
   remove_adapter_default_promotion.2.2.2 ⟨[("a", 1), ("b", 2)], some "a"⟩
     ⟨[("b", 2)], some "b"⟩ "a"
     (fun d hd => by cases Option.some.inj hd; rfl) rfl⟩

/-- C6 (confirmed): `get_adapter(None)` resolves to the current default
and raises `ValidationError` when no default is configured; for an
unregistered name the raised `ValidationError` carries the message that
enumerates every registered name (each appears inside it); and after
registering exactly one adapter on a fresh registry, `get_adapter(None)`
returns that adapter. -/
theorem get_adapter_resolution {α : Type u} :
    (∀ m : Manager α, m.default_adapter = none →
        m.get_adapter none
          = .error (.validationError "No default payment adapter configured"))
    ∧ (∀ (m : Manager α) (d : String) (a : α), m.default_adapter = some d → d ≠ "" →
        dictGet (pyLower d) m.adapters = some a → m.get_adapter none = .ok a)
    ∧ (∀ (m : Manager α) (name : String), dictGet (pyLower name) m.adapters = none →
        m.get_adapter (some name)
          = .error (.validationError (notFoundMsg name (dictKeys m.adapters)))
        ∧ ∀ k ∈ dictKeys m.adapters, ∃ x y,
            (notFoundMsg name (dictKeys m.adapters)).data = x ++ (k.data ++ y))
    ∧ (∀ (name : String) (a : α) (m' : Manager α), name ≠ "" →
        (Manager.init (α := α)).register_adapter name a false = .ok m' →
        m'.get_adapter none = .ok a) := by
  refine ⟨?_, ?_, ?_, ?_⟩
  · intro m h
    simp [Manager.get_adapter, h, pyFalsyStrOpt]
  · intro m d a hd hne hget
    simp only [Manager.get_adapter, hd]
    have hf : pyFalsyStrOpt (some d) = false := by
      simp [pyFalsyStrOpt, hne]
    simp [pyFalsyStrOpt, hne, hget]
  · intro m name hget
    refine ⟨by simp [Manager.get_adapter, hget], ?_⟩
    intro k hk
    obtain ⟨x, y, hxy⟩ := joinComma_decomp (dictKeys m.adapters) k hk
    refine ⟨("Payment adapter " ++ squote ++ name ++ squote
      ++ " not found. Available adapters: ").data ++ x, y, ?_⟩
    simp [notFoundMsg, String.data_append, hxy]
  · intro name a m' hn hr
    have hm' := register_first_default name a false m' hn hr
    subst hm'
    have hf : pyFalsyStrOpt (some (pyLower name)) = false := pyFalsyStrOpt_some_pyLower hn
    simp [Manager.get_adapter, hf, pyLower_idem, dictGet]

/-- Witness for the C6 theorem: the default-less empty registry fails,
the singleton registry resolves the default, looking up `"missing"`
yields the enumerating message, and registering `"custom"` on a fresh
registry makes `get_adapter(None)` return it. -/
theorem get_adapter_resolution_witness :
    (Manager.mk ([] : List (String × Nat)) none).get_adapter none
      = .error (.validationError "No default payment adapter configured")
    ∧ (Manager.mk [("a", 7)] (some "a") : Manager Nat).get_adapter none = .ok 7
    ∧ (Manager.mk [("a", 7)] (some "a") : Manager Nat).get_adapter (some "missing")
      = .error (.validationError (notFoundMsg "missing" (dictKeys [("a", (7 : Nat))])))
    ∧ (Manager.mk [("custom", 9)] (some "custom") : Manager Nat).get_adapter none = .ok 9 :=
  ⟨get_adapter_resolution.1 ⟨[], none⟩ rfl,
   get_adapter_resolution.2.1 ⟨[("a", 7)], some "a"⟩ "a" 7 rfl (by decide) rfl,
   (get_adapter_resolution.2.2.1 ⟨[("a", 7)], some "a"⟩ "missing" rfl).1,
   get_adapter_resolution.2.2.2 "custom" 9 ⟨[("custom", 9)], some "custom"⟩
     (by decide) rfl⟩

/-- C7 (confirmed): in `StripeAdapter.refund_payment` an omitted amount
yields a refund request with no amount field at all, while a supplied
positive amount is passed through as the partial-refund amount. -/
theorem refund_amount_omitted_means_full_refund :
    (∀ (pid : String) (reason : Option String) (md : Option (List (String × String))),
        (StripeAdapter.refundRequest pid none reason md).amount = none)
    ∧ (∀ (pid : String) (reason : Option String) (md : Option (List (String × String)))
        (a : Int), 0 < a →
        (StripeAdapter.refundRequest pid (some a) reason md).amount = some a) := by
  refine ⟨fun _ _ _ => rfl, ?_⟩
  intro pid reason md a ha
  have : pyTruthyIntOpt (some a) = true := by
    simp [pyTruthyIntOpt]
    omega
  simp [StripeAdapter.refundRequest, this]

/-- Witness for the C7 theorem at `payment_intent = "pi_1"` and partial
amount 7. -/
theorem refund_amount_omitted_means_full_refund_witness :
    (StripeAdapter.refundRequest "pi_1" none none none).amount = none
    ∧ (StripeAdapter.refundRequest "pi_1" (some 7) none none).amount = some 7 :=
  ⟨refund_amount_omitted_means_full_refund.1 "pi_1" none none,
   refund_amount_omitted_means_full_refund.2 "pi_1" none none 7 (by decide)⟩

/-- C8 (counterexample): the claim says `create_connect_account` records
the bypass in metadata exactly when both flags are set, but the request
metadata is a dict literal with the caller metadata unpacked last: with
both flags set and caller metadata supplying `kyc_bypassed = "False"`,
the onboarding URL is omitted yet the request records `"False"`, not
`str(True and True) = "True"`. -/
theorem connect_account_metadata_override :
    (StripeAdapter.create_connect_account "r1" "r@x.io" "US" "express" true true
      (some [("kyc_bypassed", "False")]) ⟨"acct_1", false, false⟩
      "https://onboard").onboarding_url = none
    ∧ dictGet "kyc_bypassed"
        (StripeAdapter.create_connect_account "r1" "r@x.io" "US" "express" true true
          (some [("kyc_bypassed", "False")]) ⟨"acct_1", false, false⟩
          "https://onboard").request_metadata = some "False"
    ∧ pyStrBool (true && true) = "True"
    ∧ ("False" : String) ≠ "True" :=
  ⟨rfl, rfl, rfl, by decide⟩

/-- C8 (amended): `create_connect_account` omits the onboarding URL
exactly when both `bypass_kyc` and `admin_override` are set; whenever the
caller-supplied metadata does not itself contain a `kyc_bypassed` key, it
records `kyc_bypassed = str(bypass_kyc and admin_override)` in the
request metadata (a caller-supplied key overrides the recorded value,
since the metadata dict is built with the caller mapping unpacked last);
and with exactly one of the two flags set it still produces the
onboarding URL. -/
theorem connect_account_dual_flag_bypass :
    (∀ (rid email country atype : String) (b a : Bool)
        (md : Option (List (String × String))) (acct : ConnectAccountInfo) (url : String),
        (StripeAdapter.create_connect_account rid email country atype b a md acct
          url).onboarding_url.isNone = (b && a))
    ∧ (∀ (rid email country atype : String) (b a : Bool)
        (md : Option (List (String × String))) (acct : ConnectAccountInfo) (url : String),
        dictGet "kyc_bypassed" (md.getD []) = none →
        dictGet "kyc_bypassed"
          (StripeAdapter.create_connect_account rid email country atype b a md acct
            url).request_metadata = some (pyStrBool (b && a)))
    ∧ (∀ (rid email country atype : String) (b a : Bool)
        (md : Option (List (String × String))) (acct : ConnectAccountInfo) (url : String),
        b ≠ a →
        (StripeAdapter.create_connect_account rid email country atype b a md acct
          url).onboarding_url = some url) := by
  refine ⟨?_, ?_, ?_⟩
  · intro rid email country atype b a md acct url
    cases b <;> cases a <;> rfl
  · intro rid email country atype b a md acct url hmd
    show dictGet "kyc_bypassed"
      (pyDictMerge [("recipient_id", rid), ("kyc_bypassed", pyStrBool (b && a))]
        (md.getD [])) = some (pyStrBool (b && a))
    rw [dictGet_pyDictMerge_of_absent "kyc_bypassed" _ _ hmd]
    simp [dictGet]
  · intro rid email country atype b a md acct url hba
    cases b <;> cases a <;> first
      | rfl
      | exact absurd rfl hba

/-- Witness for the amended C8 theorem: with `bypass_kyc` set but
`admin_override` unset the onboarding URL is still produced, and with
both flags set and no caller metadata the bypass is recorded. -/
theorem connect_account_dual_flag_bypass_witness :
    (StripeAdapter.create_connect_account "r1" "r@x.io" "US" "express" true false none
      ⟨"acct_1", false, false⟩ "https://onboard").onboarding_url = some "https://onboard"
    ∧ dictGet "kyc_bypassed"
        (StripeAdapter.create_connect_account "r1" "r@x.io" "US" "express" true true none
          ⟨"acct_1", false, false⟩ "https://onboard").request_metadata
      = some (pyStrBool (true && true)) :=
  ⟨connect_account_dual_flag_bypass.2.2 "r1" "r@x.io" "US" "express" true false none
    ⟨"acct_1", false, false⟩ "https://onboard" (by decide),
   connect_account_dual_flag_bypass.2.1 "r1" "r@x.io" "US" "express" true true none
    ⟨"acct_1", false, false⟩ "https://onboard" rfl⟩

/-- C9 (confirmed): adapter names are case-insensitive throughout the
manager — for any two spellings with the same lower-casing, `has_adapter`
agrees, `get_adapter` returns the same adapter, `remove_adapter` produces
the same registry, and `register_adapter` is literally the same
operation. -/
theorem manager_case_insensitive {α : Type u} (m : Manager α) (M N : String)
    (h : pyLower M = pyLower N) :
    m.has_adapter M = m.has_adapter N
    ∧ (∀ a : α, m.get_adapter (some M) = .ok a ↔ m.get_adapter (some N) = .ok a)
    ∧ (∀ m' : Manager α, m.remove_adapter M = .ok m' ↔ m.remove_adapter N = .ok m')
    ∧ (∀ (a : α) (flag : Bool),
        m.register_adapter M a flag = m.register_adapter N a flag) := by
  refine ⟨?_, ?_, ?_, ?_⟩
  · simp [Manager.has_adapter, h]
  · intro a
    simp only [Manager.get_adapter, h]
    cases hg : dictGet (pyLower N) m.adapters with
    | none => exact ⟨fun hc => Except.noConfusion hc, fun hc => Except.noConfusion hc⟩
    | some v => exact Iff.rfl
  · intro m'
    simp only [Manager.remove_adapter, h]
    cases hg : dictGet (pyLower N) m.adapters with
    | none => exact ⟨fun hc => Except.noConfusion hc, fun hc => Except.noConfusion hc⟩
    | some v => exact Iff.rfl
  · intro a flag
    by_cases hM : M = ""
    · have hN : N = "" := by
        refine (pyLower_eq_empty_iff N).mp ?_
        rw [← h, hM]
        rfl
      simp [Manager.register_adapter, hM, hN]
    · have hN : N ≠ "" := by
        intro hc
        exact hM ((pyLower_eq_empty_iff M).mp (by rw [h, hc]; rfl))
      simp [Manager.register_adapter, hM, hN, h]

/-- Witness for the C9 theorem: `"Stripe"` and `"STRIPE"` address the
same registration. -/
theorem manager_case_insensitive_witness :
    pyLower "Stripe" = pyLower "STRIPE"
    ∧ (Manager.mk [("stripe", 5)] (some "stripe") : Manager Nat).has_adapter "Stripe"
      = (Manager.mk [("stripe", 5)] (some "stripe") : Manager Nat).has_adapter "STRIPE" :=
  ⟨by decide,
   (manager_case_insensitive ⟨[("stripe", 5)], some "stripe"⟩ "Stripe" "STRIPE" (by decide)).1⟩
